import Mathlib

/-!
Shallow embedding of the `weather-server` MCP adapter
(`src/index.ts`, `src/types.ts`).

JavaScript runtime values reaching the validator are modelled by the
inductive `JSValue`; numbers are modelled as `Int` (no claim depends on
fractional or NaN behaviour, and where JS falsiness of `0` matters it is
modelled explicitly).  Objects are association lists of fields; a field
mapped to `JSValue.undefined` behaves exactly like an absent field under
property access, matching JavaScript semantics.
-/

namespace WeatherServer

/-- A JavaScript runtime value, as far as the adapter inspects one. -/
inductive JSValue where
  | undefined
  | null
  | bool (b : Bool)
  | num (x : Int)
  | str (s : String)
  | arr (xs : List JSValue)
  | obj (fields : List (String × JSValue))

/-- The JavaScript `typeof` operator restricted to `JSValue`. -/
def jsTypeof : JSValue → String
  | .undefined => "undefined"
  | .null => "object"
  | .bool _ => "boolean"
  | .num _ => "number"
  | .str _ => "string"
  | .arr _ => "object"
  | .obj _ => "object"

/-- Strict-equality test against `null` (`args !== null`). -/
def JSValue.isNull : JSValue → Bool
  | .null => true
  | _ => false

/-- Strict-equality test against `undefined` (`x === undefined`). -/
def JSValue.isUndefined : JSValue → Bool
  | .undefined => true
  | _ => false

/-- Property access `v.k`: resolves to the field value on objects and to
`undefined` on a missing field or a non-object receiver. -/
def JSValue.getField (v : JSValue) (k : String) : JSValue :=
  match v with
  | .obj fields => (fields.lookup k).getD .undefined
  | _ => .undefined

/-- The JavaScript `k in v` operator: key membership on objects. -/
def JSValue.hasField (v : JSValue) (k : String) : Bool :=
  match v with
  | .obj fields => (fields.lookup k).isSome
  | _ => false

/-- `isValidForecastArgs` from `src/types.ts`:
`typeof args === "object" && args !== null && "city" in args &&
typeof args.city === "string" &&
(args.days === undefined || typeof args.days === "number")`. -/
def isValidForecastArgs (args : JSValue) : Bool :=
  jsTypeof args == "object" &&
  !args.isNull &&
  args.hasField "city" &&
  jsTypeof (args.getField "city") == "string" &&
  ((args.getField "days").isUndefined || jsTypeof (args.getField "days") == "number")

/-- The validator contract as the spec words it (§4.1): the input is a
non-null object whose `city` field is a string, and whose `days` field,
when present (i.e. defined — a field holding `undefined` counts as absent,
the usual optional-field semantics of the source language), is numeric. -/
def specAcceptsForecastArgs : JSValue → Bool
  | .obj fields =>
      (match fields.lookup "city" with
        | some (.str _) => true
        | _ => false) &&
      (match fields.lookup "days" with
        | none => true
        | some .undefined => true
        | some (.num _) => true
        | _ => false)
  | _ => false

/-- C6: the validator accepts a raw input if and only if it is a non-null
object with a string `city` field whose `days` field, when present, is
numeric; every other shape is rejected, and a numeric `days` is accepted
without any range check (here: a negative value passes validation). -/
theorem c6_validator_iff_spec :
    (∀ args : JSValue, isValidForecastArgs args = specAcceptsForecastArgs args) ∧
    isValidForecastArgs (.obj [("city", .str "Paris"), ("days", .num (-99))]) = true := by
  constructor
  · intro args
    cases args with
    | obj fields =>
        simp only [isValidForecastArgs, specAcceptsForecastArgs, jsTypeof,
          JSValue.isNull, JSValue.hasField, JSValue.getField]
        cases hc : fields.lookup "city" with
        | none => simp [hc, jsTypeof, JSValue.isUndefined]
        | some vc =>
            cases hd : fields.lookup "days" with
            | none => cases vc <;> simp [hc, hd, jsTypeof, JSValue.isUndefined]
            | some vd => cases vc <;> cases vd <;>
                simp [hc, hd, jsTypeof, JSValue.isUndefined]
    | undefined => rfl
    | null => rfl
    | bool b => rfl
    | num x => rfl
    | str s => rfl
    | arr xs => rfl
  · rfl

/-- One entry of the upstream `weather` array (`weather[i].description`). -/
structure WeatherCond where
  description : String
deriving DecidableEq

/-- The `main` block of an upstream response. -/
structure MainData where
  temp : Int
  humidity : Int
deriving DecidableEq

/-- The `wind` block of an upstream response. -/
structure WindData where
  speed : Int
deriving DecidableEq

/-- `OpenWeatherResponse` from `src/types.ts`; `dt_txt` is optional. -/
structure OpenWeatherResponse where
  main : MainData
  weather : List WeatherCond
  wind : WindData
  dt_txt : Option String
deriving DecidableEq

/-- `WeatherData` from `src/types.ts` (the resource-read output shape). -/
structure WeatherData where
  temperature : Int
  conditions : String
  humidity : Int
  wind_speed : Int
  timestamp : String
deriving DecidableEq

/-- `ForecastDay` from `src/types.ts` (one aggregated forecast entry). -/
structure ForecastDay where
  date : String
  temperature : Int
  conditions : String
deriving DecidableEq

/-- The error object of a failed axios call: `message` is always present,
`responseDataMessage` models `error.response?.data.message` and is `none`
when there is no response body or it carries no message. -/
structure AxiosError where
  responseDataMessage : Option String
  message : String
deriving DecidableEq

/-- The protocol error codes the adapter throws (`McpError` codes). -/
inductive ErrorCode where
  | MethodNotFound
  | InvalidParams
  | InvalidRequest
  | InternalError
deriving DecidableEq

/-- A runtime exception that is not an axios error; reading
`weather[0].description` on an empty `weather` array raises one. -/
inductive RuntimeError where
  | typeError
deriving DecidableEq

/-- The default city baked into `API_CONFIG`. -/
def DEFAULT_CITY : String := "San Francisco"

/-- Truthiness of a `JSValue` (only `undefined`, `null`, `false`, `0` and
the empty string are falsy among the modelled values). -/
def jsTruthy : JSValue → Bool
  | .undefined => false
  | .null => false
  | .bool b => b
  | .num x => x != 0
  | .str s => s != ""
  | .arr _ => true
  | .obj _ => true

/-- Numeric reading of a `JSValue`.  On the handler path this is only ever
applied to `num` values (validation guarantees `days` is a number when
truthy), so the coercion of other shapes is irrelevant and fixed at 0. -/
def jsToNum : JSValue → Int
  | .num x => x
  | _ => 0

/-- String reading of a `JSValue`; on the handler path it is only applied
to the validated `city` field, which is a `str`. -/
def jsAsString : JSValue → String
  | .str s => s
  | _ => ""

/-- The effective day count of the tool handler, from `src/index.ts`:
`Math.min(request.params.arguments.days || 3, 5)`. -/
def effectiveDays (daysField : JSValue) : Int :=
  min (if jsTruthy daysField then jsToNum daysField else 3) 5

/-- `s.split(' ')[0]`: the longest initial segment of `s` free of spaces
(for a string with no space this is the whole string, exactly as the
JavaScript expression yields). -/
def splitSpaceHead (s : String) : String :=
  String.mk (s.toList.takeWhile (fun c => c ≠ ' '))

/-- The `date` field of a produced `ForecastDay`, from `src/index.ts`:
`dayData.dt_txt?.split(' ')[0] ?? new Date().toISOString().split('T')[0]`;
`today` stands for the capture-time current date. -/
def dtDate (dt : Option String) (today : String) : String :=
  match dt with
  | some s => splitSpaceHead s
  | none => today

/-- Building one `ForecastDay` from a selected sample; fails with a
`TypeError` when `weather` is empty, since `weather[0].description` is
read unconditionally. -/
def sampleToForecastDay (s : OpenWeatherResponse) (today : String) :
    Except RuntimeError ForecastDay :=
  match s.weather with
  | [] => .error .typeError
  | w :: _ =>
      .ok { date := dtDate s.dt_txt today
            temperature := s.main.temp
            conditions := w.description }

/-- Helper for `stride8`: with countdown `n`, skip `n` samples, take the
next one, then repeat with countdown 7 — the visiting pattern of a loop
stepping its index by 8. -/
def strideAux : Nat → List OpenWeatherResponse → List OpenWeatherResponse
  | _, [] => []
  | 0, x :: rest => x :: strideAux 7 rest
  | n + 1, _ :: rest => strideAux n rest

/-- The samples visited by the aggregation loop
`for (let i = 0; i < list.length; i += 8)`: indices 0, 8, 16, … of the
upstream list (`stride8_getElem?` below proves this index
characterization). -/
def stride8 (l : List OpenWeatherResponse) : List OpenWeatherResponse :=
  strideAux 0 l

/-- The loop body applied in order to every selected sample, stopping at
the first `TypeError` exactly as the thrown exception aborts the loop. -/
def buildForecasts (sel : List OpenWeatherResponse) (today : String) :
    Except RuntimeError (List ForecastDay) :=
  match sel with
  | [] => .ok []
  | s :: rest => do
      let d ← sampleToForecastDay s today
      let ds ← buildForecasts rest today
      .ok (d :: ds)

/-- The whole aggregation step of the tool handler over the upstream
`list` field. -/
def aggregate (list : List OpenWeatherResponse) (today : String) :
    Except RuntimeError (List ForecastDay) :=
  buildForecasts (stride8 list) today

/-- Outcome of the `CallTool` handler: a thrown protocol fault, a success
envelope carrying the serialized forecasts, a success envelope flagged
`isError: true` carrying an error text, or an uncaught rethrown
exception. -/
inductive ToolOutcome where
  | fault (code : ErrorCode) (msg : String)
  | reply (forecasts : List ForecastDay)
  | errorReply (text : String)
  | raised (e : RuntimeError)
deriving DecidableEq

/-- Outcome of the `ReadResource` handler: a thrown protocol fault, the
serialized `WeatherData` document, or an uncaught rethrown exception. -/
inductive ResourceOutcome where
  | fault (code : ErrorCode) (msg : String)
  | reply (data : WeatherData)
  | raised (e : RuntimeError)

/-- The `CallTool` request handler from `src/index.ts`.  `upstream` is the
result the forecast endpoint would deliver; the second component of the
result records the query actually issued to it — the city and the `cnt`
parameter — and is `none` exactly when the handler returns without any
network call. -/
def handleCallTool (name : String) (args : JSValue)
    (upstream : Except AxiosError (List OpenWeatherResponse))
    (today : String) : ToolOutcome × Option (String × Int) :=
  if name ≠ "get_forecast" then
    (.fault .MethodNotFound ("Unknown tool: " ++ name), none)
  else if ¬ isValidForecastArgs args then
    (.fault .InvalidParams "Invalid forecast arguments", none)
  else
    let city := jsAsString (args.getField "city")
    let days := effectiveDays (args.getField "days")
    let req := some (city, days * 8)
    match upstream with
    | .error e =>
        (.errorReply ("Weather API error: " ++
          (e.responseDataMessage.getD e.message)), req)
    | .ok list =>
        match aggregate list today with
        | .ok forecasts => (.reply forecasts, req)
        | .error err => (.raised err, req)

/-- The `ReadResource` request handler from `src/index.ts`.  `upstream` is
the result the current-weather endpoint would deliver; the second
component records the city queried upstream and is `none` exactly when no
network call is made. -/
def handleReadResource (uri : String)
    (upstream : Except AxiosError OpenWeatherResponse)
    (ts : String) : ResourceOutcome × Option String :=
  if uri ≠ "weather://" ++ DEFAULT_CITY ++ "/current" then
    (.fault .InvalidRequest ("Unknown resource: " ++ uri), none)
  else
    match upstream with
    | .error e =>
        (.fault .InternalError ("Weather API error: " ++
          (e.responseDataMessage.getD e.message)), some DEFAULT_CITY)
    | .ok resp =>
        match resp.weather with
        | [] => (.raised .typeError, some DEFAULT_CITY)
        | w :: _ =>
            (.reply { temperature := resp.main.temp
                      conditions := w.description
                      humidity := resp.main.humidity
                      wind_speed := resp.wind.speed
                      timestamp := ts }, some DEFAULT_CITY)

/-- Length of the skip-and-take traversal, for any countdown. -/
theorem strideAux_length (l : List OpenWeatherResponse) :
    ∀ n : Nat, (strideAux n l).length = (l.length - n + 7) / 8 := by
  induction l with
  | nil => intro n; simp [strideAux]
  | cons x rest ih =>
      intro n
      cases n with
      | zero =>
          have h7 := ih 7
          simp only [strideAux, List.length_cons] at *
          omega
      | succ n =>
          have hn := ih n
          simp only [strideAux, List.length_cons] at *
          omega

/-- The loop visits one sample per started group of 8: `⌈len/8⌉` of them. -/
theorem stride8_length (l : List OpenWeatherResponse) :
    (stride8 l).length = (l.length + 7) / 8 := by
  have h := strideAux_length l 0
  simpa [stride8] using h

/-- Index characterization of the skip-and-take traversal. -/
theorem strideAux_getElem? (l : List OpenWeatherResponse) :
    ∀ n k : Nat, (strideAux n l)[k]? = l[n + 8 * k]? := by
  induction l with
  | nil => intro n k; simp [strideAux]
  | cons x rest ih =>
      intro n k
      cases n with
      | zero =>
          cases k with
          | zero => simp [strideAux]
          | succ k =>
              have h := ih 7 k
              have h8 : 0 + 8 * (k + 1) = (7 + 8 * k) + 1 := by ring
              simp only [strideAux, List.getElem?_cons_succ, h, h8]
      | succ n =>
          have h := ih n k
          have hn : (n + 1) + 8 * k = (n + 8 * k) + 1 := by ring
          simp only [strideAux, List.getElem?_cons_succ, h, hn]

/-- The loop visits exactly the samples at indices 0, 8, 16, …: the k-th
selected sample is the sample at index `8 * k` of the upstream list. -/
theorem stride8_getElem? (l : List OpenWeatherResponse) (k : Nat) :
    (stride8 l)[k]? = l[8 * k]? := by
  have h := strideAux_getElem? l 0 k
  simpa [stride8] using h

/-- On success the loop produces one `ForecastDay` per selected sample. -/
theorem buildForecasts_length (sel : List OpenWeatherResponse) (today : String) :
    ∀ fs, buildForecasts sel today = .ok fs → fs.length = sel.length := by
  induction sel with
  | nil =>
      intro fs h
      simp only [buildForecasts] at h
      cases h
      rfl
  | cons s rest ih =>
      intro fs h
      simp only [buildForecasts] at h
      cases hd : sampleToForecastDay s today with
      | error e => rw [hd] at h; simp [Bind.bind, Except.bind] at h
      | ok d =>
          rw [hd] at h
          cases hr : buildForecasts rest today with
          | error e => rw [hr] at h; simp [Bind.bind, Except.bind] at h
          | ok ds =>
              rw [hr] at h
              simp only [Bind.bind, Except.bind] at h
              cases h
              simp [ih ds hr]

/-- If any selected sample has an empty `weather` array, the loop raises
a `TypeError` (the read of `weather[0].description` fails). -/
theorem buildForecasts_error (sel : List OpenWeatherResponse) (today : String)
    (h : ∃ s ∈ sel, s.weather = []) :
    buildForecasts sel today = .error .typeError := by
  induction sel with
  | nil => rcases h with ⟨s, hs, _⟩; cases hs
  | cons a rest ih =>
      rcases h with ⟨s, hs, hw⟩
      rcases List.mem_cons.mp hs with h1 | h1
      · subst h1
        simp [buildForecasts, sampleToForecastDay, hw, Bind.bind, Except.bind]
      · cases hd : sampleToForecastDay a today with
        | error e =>
            cases e
            simp [buildForecasts, hd, Bind.bind, Except.bind]
        | ok d =>
            simp [buildForecasts, hd, Bind.bind, Except.bind, ih ⟨s, h1, hw⟩]

/-- A fully populated upstream sample used in concrete scenarios. -/
def sampleA : OpenWeatherResponse :=
  { main := { temp := 20, humidity := 50 }
    weather := [{ description := "clear sky" }]
    wind := { speed := 5 }
    dt_txt := some "2024-06-01 12:00:00" }

/-- The `ForecastDay` the aggregator produces from `sampleA`. -/
def dayA : ForecastDay :=
  { date := "2024-06-01", temperature := 20, conditions := "clear sky" }

/-- An upstream sample whose temperature records its position, so that a
concrete run shows which indices the aggregator selected. -/
def numberedSample (i : Int) : OpenWeatherResponse :=
  { main := { temp := i, humidity := 50 }
    weather := [{ description := "clear sky" }]
    wind := { speed := 5 }
    dt_txt := some "2024-06-01 12:00:00" }

/-- An upstream sample carrying an empty `weather` array. -/
def emptyWeatherSample : OpenWeatherResponse :=
  { main := { temp := 0, humidity := 0 }
    weather := []
    wind := { speed := 0 }
    dt_txt := none }

/-- Valid tool arguments with city Paris and days 2. -/
def argsParis2 : JSValue :=
  .obj [("city", .str "Paris"), ("days", .num 2)]

/-- C1 counterexample: supplying the numeric value `days = 0` yields an
effective day count of 3 (JavaScript `0 || 3`), not `min(0, 5) = 0`; and
supplying `days = -2` yields -2, which is passed downstream as
`cnt = -16` — the effective count is not clamped into `[1, 5]`. -/
theorem c1_counterexample :
    effectiveDays (.num 0) = 3 ∧ min (0 : Int) 5 ≠ 3 ∧
    effectiveDays (.num (-2)) = -2 ∧ ¬ (1 ≤ effectiveDays (.num (-2))) ∧
    (handleCallTool "get_forecast"
        (.obj [("city", .str "Paris"), ("days", .num (-2))])
        (.error { responseDataMessage := none, message := "Network Error" })
        "2024-06-01").2 = some ("Paris", -16) := by
  refine ⟨by decide, by decide, by decide, by decide, ?_⟩
  rfl

/-- C1 amended: the effective day count is `min(days, 5)` when a nonzero
numeric `days` is supplied, and 3 when `days` is absent or 0 (a falsy
number); it is clamped from above to 5 but not from below to 1, and the
tool handler passes `effectiveDays × 8` downstream as the upstream `cnt`
parameter whenever validation succeeds. -/
theorem c1_amended_effective_days :
    (∀ d : Int, d ≠ 0 → effectiveDays (.num d) = min d 5) ∧
    effectiveDays .undefined = 3 ∧
    effectiveDays (.num 0) = 3 ∧
    (∀ v : JSValue, effectiveDays v ≤ 5) ∧
    (∀ (args : JSValue) (u : Except AxiosError (List OpenWeatherResponse))
       (today : String),
      isValidForecastArgs args = true →
      (handleCallTool "get_forecast" args u today).2 =
        some (jsAsString (args.getField "city"),
              effectiveDays (args.getField "days") * 8)) := by
  refine ⟨?_, rfl, rfl, ?_, ?_⟩
  · intro d hd
    simp [effectiveDays, jsTruthy, jsToNum, hd]
  · intro v
    exact min_le_right _ _
  · intro args u today hv
    rw [handleCallTool, if_neg (by simp), if_neg (by simp [hv])]
    cases u with
    | error e => rfl
    | ok list => cases h : aggregate list today <;> simp [h]

/-- Witness for `c1_amended_effective_days` at concrete inputs. -/
theorem c1_amended_witness :
    effectiveDays (.num 7) = min 7 5 ∧
    (handleCallTool "get_forecast" argsParis2 (.ok []) "2024-06-01").2 =
      some (jsAsString (argsParis2.getField "city"),
            effectiveDays (argsParis2.getField "days") * 8) :=
  ⟨c1_amended_effective_days.1 7 (by decide),
   c1_amended_effective_days.2.2.2.2 argsParis2 (.ok []) "2024-06-01" (by decide)⟩

/-- C3: any resource read whose URI is not the single default-city URI is
answered with an `InvalidRequest` ("Unknown resource") protocol fault, and
any tool call whose name is not `get_forecast` with a `MethodNotFound`
("Unknown tool") protocol fault; in both cases the recorded upstream query
is `none` — no network call is made. -/
theorem c3_unknown_targets (uri name : String) (args : JSValue)
    (uc : Except AxiosError OpenWeatherResponse)
    (uf : Except AxiosError (List OpenWeatherResponse)) (ts today : String)
    (hu : uri ≠ "weather://" ++ DEFAULT_CITY ++ "/current")
    (hn : name ≠ "get_forecast") :
    handleReadResource uri uc ts =
      (.fault .InvalidRequest ("Unknown resource: " ++ uri), none) ∧
    handleCallTool name args uf today =
      (.fault .MethodNotFound ("Unknown tool: " ++ name), none) :=
  ⟨by rw [handleReadResource.eq_def, if_pos hu],
   by rw [handleCallTool, if_pos hn]⟩

/-- Witness for `c3_unknown_targets`: the unknown URI
`weather://Nowhere/current` and the unknown tool name `get_current`. -/
theorem c3_witness :
    handleReadResource "weather://Nowhere/current" (.ok sampleA) "t" =
      (.fault .InvalidRequest ("Unknown resource: " ++ "weather://Nowhere/current"), none) ∧
    handleCallTool "get_current" argsParis2 (.ok [sampleA]) "2024-06-01" =
      (.fault .MethodNotFound ("Unknown tool: " ++ "get_current"), none) :=
  c3_unknown_targets "weather://Nowhere/current" "get_current" argsParis2
    (.ok sampleA) (.ok [sampleA]) "t" "2024-06-01" (by decide) (by decide)

/-- C4: when the upstream forecast request fails with an axios error, the
tool handler returns a success envelope flagged as an error result (not a
protocol fault), whose text carries the provider message when one was
supplied and the generic transport message otherwise. -/
theorem c4_upstream_failure (args : JSValue) (e : AxiosError) (today : String)
    (hv : isValidForecastArgs args = true) :
    (handleCallTool "get_forecast" args (.error e) today).1 =
      .errorReply ("Weather API error: " ++ (e.responseDataMessage.getD e.message)) := by
  rw [handleCallTool, if_neg (by simp), if_neg (by simp [hv])]

/-- Witness for `c4_upstream_failure`: one failure with a provider message
and one without. -/
theorem c4_witness :
    (handleCallTool "get_forecast" argsParis2
        (.error { responseDataMessage := some "city not found",
                  message := "Request failed with status code 404" })
        "2024-06-01").1 =
      .errorReply ("Weather API error: " ++
        ((some "city not found").getD "Request failed with status code 404")) ∧
    (handleCallTool "get_forecast" argsParis2
        (.error { responseDataMessage := none, message := "Network Error" })
        "2024-06-01").1 =
      .errorReply ("Weather API error: " ++ ((none : Option String).getD "Network Error")) :=
  ⟨c4_upstream_failure argsParis2
      { responseDataMessage := some "city not found",
        message := "Request failed with status code 404" } "2024-06-01" (by decide),
   c4_upstream_failure argsParis2
      { responseDataMessage := none, message := "Network Error" } "2024-06-01" (by decide)⟩

/-- C7: a `get_forecast` call whose arguments fail validation is answered
with an `InvalidParams` protocol fault, and the recorded upstream query is
`none` — validation happens before any network activity. -/
theorem c7_invalid_args (args : JSValue)
    (u : Except AxiosError (List OpenWeatherResponse)) (today : String)
    (h : isValidForecastArgs args = false) :
    handleCallTool "get_forecast" args u today =
      (.fault .InvalidParams "Invalid forecast arguments", none) := by
  rw [handleCallTool, if_neg (by simp), if_pos (by simp [h])]

/-- Witness for `c7_invalid_args`: a non-string `city`. -/
theorem c7_witness :
    handleCallTool "get_forecast" (.obj [("city", .num 1)])
        (.ok [sampleA]) "2024-06-01" =
      (.fault .InvalidParams "Invalid forecast arguments", none) :=
  c7_invalid_args (.obj [("city", .num 1)]) (.ok [sampleA]) "2024-06-01" (by decide)

/-- C2 counterexample: against a 16-sample upstream list with clamped
`days = 1`, the aggregation yields 2 entries — more than `days`, even
though the list has at least `days × 8 = 8` samples (where the claim
demands exactly `days = 1` entries). -/
theorem c2_counterexample :
    effectiveDays (.num 1) = 1 ∧
    aggregate (List.replicate 16 sampleA) "2024-06-01" = .ok [dayA, dayA] ∧
    (handleCallTool "get_forecast" (.obj [("city", .str "Paris"), ("days", .num 1)])
        (.ok (List.replicate 16 sampleA)) "2024-06-01").1 = .reply [dayA, dayA] ∧
    ¬ (([dayA, dayA] : List ForecastDay).length ≤ 1) := by
  refine ⟨by decide, ?_, ?_, by decide⟩
  · rfl
  · rfl

/-- C2 amended: on success the aggregated sequence has exactly `⌈len/8⌉`
entries, where `len` is the upstream list length; hence it has at most
`days` entries whenever the upstream returns at most `days × 8` samples,
and exactly `days` entries whenever it returns exactly `days × 8` samples
(`days ≥ 1`) — in particular it is truncated, never padded, when the
upstream returns fewer samples than requested. -/
theorem c2_amended_lengths (list : List OpenWeatherResponse) (today : String)
    (fs : List ForecastDay) (h : aggregate list today = .ok fs) :
    fs.length = (list.length + 7) / 8 ∧
    (∀ days : Nat, list.length ≤ days * 8 → fs.length ≤ days) ∧
    (∀ days : Nat, 1 ≤ days → list.length = days * 8 → fs.length = days) := by
  have hlen : fs.length = (stride8 list).length :=
    buildForecasts_length (stride8 list) today fs h
  rw [stride8_length] at hlen
  refine ⟨hlen, ?_, ?_⟩
  · intro days hle
    omega
  · intro days h1 h2
    omega

/-- Witness for `c2_amended_lengths` on a 16-sample list. -/
theorem c2_amended_witness :
    ([dayA, dayA] : List ForecastDay).length =
      ((List.replicate 16 sampleA).length + 7) / 8 ∧
    ([dayA, dayA] : List ForecastDay).length = 2 :=
  ⟨(c2_amended_lengths (List.replicate 16 sampleA) "2024-06-01" [dayA, dayA] rfl).1,
   (c2_amended_lengths (List.replicate 16 sampleA) "2024-06-01" [dayA, dayA] rfl).2.2
     2 (by decide) (by decide)⟩

/-- C5 counterexample: with a 24-sample upstream listing and `days = 2`
the handler returns 3 entries (the loop also visits index 16), not
exactly 2. -/
theorem c5_counterexample :
    (handleCallTool "get_forecast" argsParis2
        (.ok (List.replicate 24 sampleA)) "2024-06-01").1 =
      .reply [dayA, dayA, dayA] ∧
    ([dayA, dayA, dayA] : List ForecastDay).length ≠ 2 := by
  refine ⟨?_, by decide⟩
  rfl

/-- C5 amended: the aggregator selects exactly the samples at indices
0, 8, 16, … up to the end of the list, and each produced `ForecastDay`
takes its temperature and conditions from its selected sample; with the
16-sample listing that a `days = 2` request actually asks for
(`cnt = 16`), it yields exactly 2 entries, from the samples at index 0
and index 8 — a 24-sample listing instead yields 3. -/
theorem c5_amended_selection :
    (∀ (l : List OpenWeatherResponse) (k : Nat), (stride8 l)[k]? = l[8 * k]?) ∧
    (∀ (s : OpenWeatherResponse) (today : String) (d : ForecastDay),
      sampleToForecastDay s today = .ok d →
      d.temperature = s.main.temp ∧
      ∃ w ws, s.weather = w :: ws ∧ d.conditions = w.description) ∧
    (handleCallTool "get_forecast" argsParis2
        (.ok ((List.range 16).map (fun i => numberedSample i))) "2024-06-01").1 =
      .reply [{ date := "2024-06-01", temperature := 0, conditions := "clear sky" },
              { date := "2024-06-01", temperature := 8, conditions := "clear sky" }] := by
  refine ⟨stride8_getElem?, ?_, ?_⟩
  · intro s today d h
    cases hw : s.weather with
    | nil => simp [sampleToForecastDay, hw] at h
    | cons w ws =>
        simp only [sampleToForecastDay, hw] at h
        cases h
        exact ⟨rfl, w, ws, rfl, rfl⟩
  · rfl

/-- Witness for `c5_amended_selection`: the second selected sample of the
16-sample listing is the one at index 8, and the entry built from
`sampleA` copies its temperature and first condition. -/
theorem c5_amended_witness :
    (stride8 ((List.range 16).map (fun i => numberedSample i)))[1]? =
      ((List.range 16).map (fun i => numberedSample i))[8 * 1]? ∧
    (dayA.temperature = sampleA.main.temp ∧
      ∃ w ws, sampleA.weather = w :: ws ∧ dayA.conditions = w.description) :=
  ⟨c5_amended_selection.1 ((List.range 16).map (fun i => numberedSample i)) 1,
   c5_amended_selection.2.1 sampleA "2024-06-01" dayA rfl⟩

/-- C8: a produced `ForecastDay` takes its `date` from the sample's
`dt_txt` truncated at the first space when that string is present, and
falls back to the capture-time current date when it is absent. -/
theorem c8_date_field (s : OpenWeatherResponse) (today : String)
    (d : ForecastDay) (h : sampleToForecastDay s today = .ok d) :
    (∀ t, s.dt_txt = some t →
        d.date = String.mk (t.toList.takeWhile (fun c => c ≠ ' '))) ∧
    (s.dt_txt = none → d.date = today) := by
  cases hw : s.weather with
  | nil => simp [sampleToForecastDay, hw] at h
  | cons w ws =>
      simp only [sampleToForecastDay, hw] at h
      cases h
      constructor
      · intro t ht
        simp [dtDate, ht, splitSpaceHead]
      · intro ht
        simp [dtDate, ht]

/-- Witness for `c8_date_field`: `sampleA` carries
`dt_txt = "2024-06-01 12:00:00"` and its entry's date is `2024-06-01`. -/
theorem c8_witness :
    dayA.date =
      String.mk (("2024-06-01 12:00:00").toList.takeWhile (fun c => c ≠ ' ')) :=
  (c8_date_field sampleA "2024-06-01" dayA rfl).1 "2024-06-01 12:00:00" rfl

/-- C9: an upstream response with an empty `weather` array makes the
`weather[0]` read fail, and the failure propagates as an uncaught
`TypeError` — in the resource-read normalizer and likewise in the
aggregator for any selected sample — rather than being defaulted. -/
theorem c9_empty_weather (resp : OpenWeatherResponse) (ts : String)
    (args : JSValue) (list : List OpenWeatherResponse) (today : String)
    (s : OpenWeatherResponse)
    (hw : resp.weather = [])
    (hv : isValidForecastArgs args = true)
    (hs : s ∈ stride8 list) (hsw : s.weather = []) :
    handleReadResource ("weather://" ++ DEFAULT_CITY ++ "/current") (.ok resp) ts =
      (.raised .typeError, some DEFAULT_CITY) ∧
    (handleCallTool "get_forecast" args (.ok list) today).1 = .raised .typeError := by
  constructor
  · rw [handleReadResource.eq_def, if_neg (by simp)]
    simp [hw]
  · rw [handleCallTool, if_neg (by simp), if_neg (by simp [hv])]
    have ha : aggregate list today = .error .typeError :=
      buildForecasts_error _ _ ⟨s, hs, hsw⟩
    simp [ha]

/-- Witness for `c9_empty_weather` on a concrete empty-`weather` sample. -/
theorem c9_witness :
    handleReadResource ("weather://" ++ DEFAULT_CITY ++ "/current")
        (.ok emptyWeatherSample) "t" =
      (.raised .typeError, some DEFAULT_CITY) ∧
    (handleCallTool "get_forecast" (.obj [("city", .str "Paris")])
        (.ok [emptyWeatherSample]) "2024-06-01").1 = .raised .typeError :=
  c9_empty_weather emptyWeatherSample "t" (.obj [("city", .str "Paris")])
    [emptyWeatherSample] "2024-06-01" emptyWeatherSample rfl (by decide)
    (by decide) rfl

/-- C10: the number of entries produced by the aggregation loop is exactly
`⌈len/8⌉` for an upstream list of length `len`; the requested `days`
value plays no part in it (`aggregate` does not even take `days`, and the
bound holds for every validated argument object alike). -/
theorem c10_entry_count (list : List OpenWeatherResponse) (today : String)
    (fs : List ForecastDay) (args : JSValue)
    (hv : isValidForecastArgs args = true)
    (h : (handleCallTool "get_forecast" args (.ok list) today).1 = .reply fs) :
    fs.length = (list.length + 7) / 8 := by
  cases ha : aggregate list today with
  | error e =>
      rw [handleCallTool, if_neg (by simp), if_neg (by simp [hv])] at h
      simp [ha] at h
  | ok forecasts =>
      rw [handleCallTool, if_neg (by simp), if_neg (by simp [hv])] at h
      simp [ha] at h
      subst h
      have hlen : forecasts.length = (stride8 list).length :=
        buildForecasts_length (stride8 list) today forecasts ha
      rw [stride8_length] at hlen
      exact hlen

/-- Witness for `c10_entry_count`: a `days = 2` request against a
24-sample list still yields `⌈24/8⌉ = 3` entries. -/
theorem c10_witness :
    ([dayA, dayA, dayA] : List ForecastDay).length =
      ((List.replicate 24 sampleA).length + 7) / 8 :=
  c10_entry_count (List.replicate 24 sampleA) "2024-06-01" [dayA, dayA, dayA]
    argsParis2 (by decide) rfl

end WeatherServer
